import Mathlib

/-!
Verification of the curdling install pipeline controller (`curdling/install.py`).

The development shallowly embeds the `Install` class ("Env" in the spec): its
mutable fields become an explicit `EnvState` record, each method becomes a pure
function from state (and inputs) to state (and the jobs it queues), and the
polling loop of `retrieve_and_build` becomes a recursion over the finite trace
of states the loop observes.

Code of the repository that is not under `src/` — the `util` helpers
(`safe_name`, `is_url`, `parse_requirement`) and the `Mapping` reconciliation
engine — is modelled from the spec; each such definition is marked
`Modelled from the spec:` in its doc comment.  Everything else is translated
directly from `curdling/install.py`.
-/

namespace Curdling

/-- Modelled from the spec: a requirement may be a URL whose scheme is http,
https, file or git+ (spec section 3).  The `util.is_url` helper is not under
`src/`.  Implemented on the character list so that the kernel can evaluate
it on concrete inputs. -/
def is_url (s : String) : Bool :=
  "http://".data.isPrefixOf s.data || "https://".data.isPrefixOf s.data ||
  "file://".data.isPrefixOf s.data || "git+".data.isPrefixOf s.data

/-- Modelled from the spec: requirements are normalized by lowercasing
(spec section 3, "Normalized by lowercasing the name and canonicalizing
separators"); separator canonicalization has no observable effect on the
claims below and is modelled as the identity.  The `util.safe_name` helper is
not under `src/`. -/
def safe_name (s : String) : String := ⟨s.data.map Char.toLower⟩

/-- Characters of a requirement before the `" ("` that opens its predicate
list. -/
def nameChars : List Char → List Char
  | [] => []
  | ' ' :: '(' :: _ => []
  | c :: rest => c :: nameChars rest

/-- Modelled from the spec: the textual requirement form is
`name ( predicates )` (spec section 3), so the package name of a requirement
is the part before the space that opens the predicate list.  The
`util.parse_requirement` helper is not under `src/`. -/
def requirement_name (s : String) : String := ⟨nameChars s.data⟩

/-- `PACKAGE_BLACKLIST` from `install.py` lines 22-24. -/
def PACKAGE_BLACKLIST : List String := ["setuptools"]

/-- The duck-typed job dictionary flowing between services: `requirement` and
`dependency_of` are always present, the remaining fields accumulate as the job
advances (spec section 3, `install.py` `set_url` / `set_tarball` /
`set_wheel`). -/
structure Job where
  requirement : String
  dependency_of : Option String := none
  url : Option String := none
  tarball : Option String := none
  wheel : Option String := none
deriving DecidableEq, Repr

/-- The six services owned by the Env (`install.py` lines 80-85). -/
inductive Service where
  | finder
  | downloader
  | curdler
  | dependencer
  | installer
  | uploader
deriving DecidableEq, Repr

/-- Insert-or-overwrite on an association list: the model of assignment into a
Python dict (`self.errors[req] = exc`, `self.wheels[req] = wheel`). -/
def dictInsert {α : Type} (k : String) (v : α) :
    List (String × α) → List (String × α)
  | [] => [(k, v)]
  | (k2, v2) :: rest =>
    if k2 = k then (k, v) :: rest else (k2, v2) :: dictInsert k v rest

/-- The mutable state of the `Install` object: `repeated`, `requirements`,
`dependencies`, `stats`, `wheels` and `errors` (`install.py` lines 62-70).
Python sets and dicts become association lists; `requirements` is kept
duplicate-free because `feed` only inserts after a membership test. -/
structure EnvState where
  repeated : Nat := 0
  requirements : List String := []
  dependencies : List (String × Option String) := []
  stats : List (String × Nat) := []
  wheels : List (String × String) := []
  errors : List (String × String) := []
deriving DecidableEq, Repr

/-- `Install.count` (`install.py` line 114): `self.stats[service]`, a
`defaultdict(int)` lookup. -/
def count (s : EnvState) (service : String) : Nat :=
  (s.stats.lookup service).getD 0

/-- The `update_count` handler connected to every finished signal
(`install.py` lines 105-112): `self.stats[name] += 1`. -/
def update_count (s : EnvState) (name : String) : EnvState :=
  { s with stats := dictInsert name (count s name + 1) s.stats }

/-- The `update_error_list` handler connected to every failed signal
(`install.py` lines 101-102): `self.errors[requirement] = exception`. -/
def update_error_list (s : EnvState) (req exc : String) : EnvState :=
  { s with errors := dictInsert req exc s.errors }

/-- The `queue_install` handler on `Dependencer.finished`
(`install.py` lines 96-98): `self.wheels[requirement] = wheel`. -/
def queue_install (s : EnvState) (req wheel : String) : EnvState :=
  { s with wheels := dictInsert req wheel s.wheels }

/-- `os.path.basename`: the component after the last slash. -/
def basename (p : String) : String :=
  ⟨p.data.foldl (fun acc c => if c = '/' then [] else acc ++ [c]) []⟩

/-- The `unique` decorator (`install.py` lines 35-43) wrapping
`downloader.queue` on the `Finder.finished` edge.  Input: the current
`downloader.processing_packages` set, the current `repeated` counter and the
job.  Output: `none` when the job dictionary has no `url` key (a `KeyError`
in Python); otherwise the job queued to the Downloader (or `none` when the
guard drops it) together with the new `repeated` counter. -/
def unique (processing : List String) (repeated : Nat) (job : Job) :
    Option (Option Job × Nat) :=
  match job.url with
  | none => none
  | some u =>
    if basename u ∈ processing then some (none, repeated + 1)
    else some (some job, repeated)

/-- `Install.set_wheel` (`install.py` lines 138-144): look up
`"<requirement>;whl"` in the artifact index and, on a hit, extend the job
with the wheel locator.  The index is the external `ArtifactIndex` contract
(spec section 6): `get` yields a locator or fails with `PackageNotFound`,
modelled as `String → Option String`. -/
def set_wheel (index : String → Option String) (data : Job) : Option Job :=
  match index (data.requirement ++ ";whl") with
  | some w => some { data with wheel := some w }
  | none => none

/-- `Install.set_tarball` (`install.py` lines 130-136): look up
`"<requirement>;~whl"` in the artifact index and, on a hit, extend the job
with the tarball locator. -/
def set_tarball (index : String → Option String) (data : Job) : Option Job :=
  match index (data.requirement ++ ";~whl") with
  | some t => some { data with tarball := some t }
  | none => none

/-- `Install.set_url` (`install.py` lines 123-128): when the raw requirement
is a URL, copy it into the `url` field of the job. -/
def set_url (data : Job) : Option Job :=
  if is_url data.requirement then some { data with url := some data.requirement }
  else none

/-- `Install.feed` (`install.py` lines 146-169).  Returns the new state and
the single `(service, job)` queued, or `none` when the requirement is dropped
by the blacklist or by deduplication.  Faithful details: the blacklist and
dedup checks run on the `safe_name`-normalized requirement, while
`set_wheel` / `set_tarball` / `set_url` consult the raw `data.requirement`. -/
def feed (index : String → Option String) (s : EnvState) (data : Job) :
    EnvState × Option (Service × Job) :=
  let requirement := safe_name data.requirement
  if is_url requirement = false ∧ requirement_name requirement ∈ PACKAGE_BLACKLIST then
    (s, none)
  else if requirement ∈ s.requirements then
    (s, none)
  else
    let s1 : EnvState := { s with
      requirements := requirement :: s.requirements
      dependencies := (requirement, data.dependency_of) :: s.dependencies }
    match set_wheel index data with
    | some d => (s1, some (Service.dependencer, d))
    | none =>
      match set_tarball index data with
      | some d => (s1, some (Service.curdler, d))
      | none =>
        match set_url data with
        | some d => (s1, some (Service.downloader, d))
        | none => (s1, some (Service.finder, data))

/-- The progress tuple `(total, retrieved, built, failed)` computed by each
iteration of the `retrieve_and_build` wait loop (`install.py` lines 202-207). -/
def progress (s : EnvState) : Nat × Nat × Nat × Nat :=
  (s.requirements.length,
   count s "downloader" + s.repeated,
   count s "dependencer" + s.repeated,
   s.errors.length)

/-- The exit test of the `retrieve_and_build` wait loop
(`install.py` line 208): `total == built + failed`. -/
def rbExit (s : EnvState) : Bool :=
  s.requirements.length == (count s "dependencer" + s.repeated) + s.errors.length

/-- The `retrieve_and_build` wait loop (`install.py` lines 201-210) run over
the finite trace of states it observes, one per poll tick (other worker
threads mutate the state between ticks).  Each processed tick first emits its
progress tuple, then breaks if the exit test holds.  Result: the emitted
tuples and whether the loop exited within the trace. -/
def rbLoop : List EnvState → List (Nat × Nat × Nat × Nat) × Bool
  | [] => ([], false)
  | s :: rest =>
    if rbExit s then ([progress s], true)
    else
      let r := rbLoop rest
      (progress s :: r.1, r.2)

/-- The prefix of a trace actually observed by the wait loop: every state up
to and including the first one passing the exit test. -/
def rbTicks : List EnvState → List EnvState
  | [] => []
  | s :: rest => if rbExit s then [s] else s :: rbTicks rest

/-- Exceptions visible to the reconciliation code: `load_uploader`
distinguishes `VersionConflict` (caught) from every other exception
(propagated), while `load_installer` catches all of them. -/
inductive Exc where
  | versionConflict (msg : String)
  | other (msg : String)
deriving DecidableEq, Repr

/-- Whether an exception is a `VersionConflict`. -/
def isVersionConflict : Exc → Bool
  | Exc.versionConflict _ => true
  | Exc.other _ => false

/-- Modelled from the spec: the `Mapping` reconciliation engine
(spec section 4.4) is not under `src/`; the operations `install.py` invokes
on it are collected as a record of functions on the maestro built by
`load_installer`.  `best_version` returns a `(version, chosen requirement)`
pair or fails; `get_requirements_by_package_name` lists the filed
requirements sharing a package name; `get_data_exception` / `get_data_wheel`
retrieve the per-requirement metadata keys used by `install.py`;
`dependency_of` reads `maestro.mapping[requirement]` on the filed entry. -/
structure MappingOps where
  best_version : String → Except Exc (String × String)
  get_requirements_by_package_name : String → List String
  get_data_exception : String → Option Exc
  get_data_wheel : String → Option String
  dependency_of : String → Option String

/-- One entry appended to the error report of `load_installer`
(`install.py` lines 188-192). -/
structure ErrorEntry where
  exception : Exc
  requirement : String
  dependency_of : Option String
deriving DecidableEq, Repr

/-- A job queued to the Installer by `load_installer`
(`install.py` lines 195-196). -/
structure InstallerJob where
  requirement : String
  wheel : Option String
deriving DecidableEq, Repr

/-- The `package_names` set assembled by `load_installer`
(`install.py` lines 173-178): the parsed name of every built requirement in
`self.wheels`, deduplicated. -/
def load_installer_package_names (wheels : List (String × String)) :
    List String :=
  (wheels.map fun w => requirement_name w.1).dedup

/-- The main loop of `Install.load_installer` (`install.py` lines 180-197)
over the package-name set: on a `best_version` failure every requirement
filed under the package name contributes an error entry carrying its own
stored exception if any, else the reconciliation failure, plus its recorded
`dependency_of`; on success the chosen requirement and its wheel are queued
to the Installer.  Result: the Installer queue and the error report (pairs of
package name and entry, flattening the `defaultdict(list)`). -/
def load_installer_loop (m : MappingOps) :
    List String → List InstallerJob × List (String × ErrorEntry)
  | [] => ([], [])
  | pn :: rest =>
    match m.best_version pn with
    | Except.error exc =>
      let entries := (m.get_requirements_by_package_name pn).map fun req =>
        (pn, { exception := (m.get_data_exception req).getD exc,
               requirement := req,
               dependency_of := m.dependency_of req : ErrorEntry })
      let r := load_installer_loop m rest
      (r.1, entries ++ r.2)
    | Except.ok vr =>
      let r := load_installer_loop m rest
      ({ requirement := vr.2, wheel := m.get_data_wheel vr.2 } :: r.1, r.2)

/-- The tail of `Install.retrieve_and_build` after the wait loop
(`install.py` lines 212-218): run `load_installer`; when its error report is
non-empty, emit `finished` with it and return the empty package list,
otherwise return the package names.  Result: the returned package list and
the payload of the emitted `finished` signal, if any. -/
def retrieve_and_build_tail (m : MappingOps) (package_names : List String) :
    List String × Option (List (String × ErrorEntry)) :=
  let r := load_installer_loop m package_names
  if r.2.isEmpty then (package_names, none) else ([], some r.2)

/-- The phase sequencing of `Install.run` (`install.py` lines 257-263)
restricted to the retrieve-and-build / install hand-off: `install(packages)`
runs iff `retrieve_and_build` returned a non-empty package list.  Result:
whether the install phase starts, and the error payload carried by the
`finished` signal emitted inside `retrieve_and_build`, if any. -/
def run (m : MappingOps) (package_names : List String) :
    Bool × Option (List (String × ErrorEntry)) :=
  let r := retrieve_and_build_tail m package_names
  (decide (r.1 ≠ []), r.2)

/-- A job queued to the Uploader by `load_uploader`
(`install.py` lines 244-245). -/
structure UploadJob where
  wheel : Option String
  server : String
  requirement : String
deriving DecidableEq, Repr

/-- The inner loop of `Install.load_uploader` (`install.py` lines 238-245)
over the package names recorded for one server: a `VersionConflict` from
`best_version` is caught and the package skipped (`continue`); any other
exception propagates and aborts the loop, keeping the jobs already queued.
Result: the jobs queued to the Uploader and the uncaught exception, if
any. -/
def load_uploader_pkgs (m : MappingOps) (server : String) :
    List String → List UploadJob × Option Exc
  | [] => ([], none)
  | pn :: rest =>
    match m.best_version pn with
    | Except.error e =>
      if isVersionConflict e then load_uploader_pkgs m server rest
      else ([], some e)
    | Except.ok vr =>
      let r := load_uploader_pkgs m server rest
      ({ wheel := m.get_data_wheel vr.2, server := server,
         requirement := vr.2 } :: r.1, r.2)

/-- The outer loop of `Install.load_uploader` (`install.py` lines 237-245)
over the `{server → [package_names]}` map returned by
`Finder.get_servers_to_update`. -/
def load_uploader_loop (m : MappingOps) :
    List (String × List String) → List UploadJob × Option Exc
  | [] => ([], none)
  | sp :: rest =>
    let r := load_uploader_pkgs m sp.1 sp.2
    match r.2 with
    | some e => (r.1, some e)
    | none =>
      let r2 := load_uploader_loop m rest
      (r.1 ++ r2.1, r2.2)

/-! ### Helper lemmas on `feed` -/

/-- Feeding a requirement already in the global set changes nothing and
queues nothing (`install.py` lines 151-153). -/
theorem feed_mem_drop (index : String → Option String) (s : EnvState)
    (data : Job) (hmem : safe_name data.requirement ∈ s.requirements) :
    feed index s data = (s, none) := by
  by_cases hP : (is_url (safe_name data.requirement) = false ∧
      requirement_name (safe_name data.requirement) ∈ PACKAGE_BLACKLIST)
  · simp [feed, hP]
  · simp [feed, hP, hmem]

/-- An admitted requirement lands at the head of the requirement set. -/
theorem feed_admit_requirements (index : String → Option String)
    (s : EnvState) (data : Job)
    (hP : ¬(is_url (safe_name data.requirement) = false ∧
      requirement_name (safe_name data.requirement) ∈ PACKAGE_BLACKLIST))
    (hQ : safe_name data.requirement ∉ s.requirements) :
    (feed index s data).1.requirements
      = safe_name data.requirement :: s.requirements := by
  simp only [feed, hP, if_false, hQ]
  cases hw : set_wheel index data
  · cases ht : set_tarball index data
    · cases hu : set_url data <;> simp [hw, ht, hu]
    · simp [hw, ht]
  · simp [hw]

/-- An admitted requirement is queued to some service. -/
theorem feed_admit_queues (index : String → Option String)
    (s : EnvState) (data : Job)
    (hP : ¬(is_url (safe_name data.requirement) = false ∧
      requirement_name (safe_name data.requirement) ∈ PACKAGE_BLACKLIST))
    (hQ : safe_name data.requirement ∉ s.requirements) :
    ∃ svc job, (feed index s data).2 = some (svc, job) := by
  simp only [feed, hP, if_false, hQ]
  cases hw : set_wheel index data
  · cases ht : set_tarball index data
    · cases hu : set_url data <;> simp [hw, ht, hu]
    · simp [hw, ht]
  · simp [hw]

/-! ### Claim theorems -/

/-- C2: on the `Finder.finished` edge, a job whose URL basename is already in
the Downloader `processing_packages` set is not queued to the Downloader and
the `repeated` counter grows by exactly one; otherwise the job is queued and
`repeated` is unchanged. -/
theorem unique_guard (processing : List String) (repeated : Nat) (job : Job)
    (u : String) (hu : job.url = some u) :
    (basename u ∈ processing →
      unique processing repeated job = some (none, repeated + 1)) ∧
    (basename u ∉ processing →
      unique processing repeated job = some (some job, repeated)) := by
  constructor <;> intro h <;> simp [unique, hu, h]

/-- Witness for C2 at a concrete in-flight collision. -/
theorem unique_guard_witness :
    ({ requirement := "sure", url := some "http://pypi/sure-0.1.2.tar.gz" : Job }.url
        = some "http://pypi/sure-0.1.2.tar.gz") ∧
    basename "http://pypi/sure-0.1.2.tar.gz" ∈ ["sure-0.1.2.tar.gz"] ∧
    unique ["sure-0.1.2.tar.gz"] 0
        { requirement := "sure", url := some "http://pypi/sure-0.1.2.tar.gz" }
      = some (none, 1) :=
  ⟨rfl, by decide,
    (unique_guard ["sure-0.1.2.tar.gz"] 0
      { requirement := "sure", url := some "http://pypi/sure-0.1.2.tar.gz" }
      "http://pypi/sure-0.1.2.tar.gz" rfl).1 (by decide)⟩

/-- C7: a non-URL requirement whose parsed package name is blacklisted is
dropped silently by `feed` — state unchanged, nothing queued — whatever its
`dependency_of`. -/
theorem feed_blacklist_drop (index : String → Option String) (s : EnvState)
    (data : Job)
    (hnoturl : is_url (safe_name data.requirement) = false)
    (hblack : requirement_name (safe_name data.requirement) ∈ PACKAGE_BLACKLIST) :
    feed index s data = (s, none) := by
  simp [feed, hnoturl, hblack]

/-- Witness for C7: a blacklisted dependency requirement is dropped. -/
theorem feed_blacklist_drop_witness :
    is_url (safe_name "setuptools") = false ∧
    requirement_name (safe_name "setuptools") ∈ PACKAGE_BLACKLIST ∧
    feed (fun _ => none) {}
        { requirement := "setuptools", dependency_of := some "curdling" }
      = ({}, none) :=
  ⟨by decide, by decide,
    feed_blacklist_drop (fun _ => none) {}
      { requirement := "setuptools", dependency_of := some "curdling" }
      (by decide) (by decide)⟩

/-- C9: a URL-form requirement never meets the blacklist test: `feed` admits
it into the requirement set and routes it to a service, with no hypothesis on
its package name. -/
theorem feed_url_bypasses_blacklist (index : String → Option String)
    (s : EnvState) (data : Job)
    (hurl : is_url (safe_name data.requirement) = true)
    (hnew : safe_name data.requirement ∉ s.requirements) :
    (feed index s data).1.requirements
        = safe_name data.requirement :: s.requirements ∧
    ∃ svc job, (feed index s data).2 = some (svc, job) := by
  have hP : ¬(is_url (safe_name data.requirement) = false ∧
      requirement_name (safe_name data.requirement) ∈ PACKAGE_BLACKLIST) := by
    simp [hurl]
  exact ⟨feed_admit_requirements index s data hP hnew,
    feed_admit_queues index s data hP hnew⟩

/-- Witness for C9: a URL naming a blacklisted package is still admitted. -/
theorem feed_url_bypasses_blacklist_witness :
    is_url (safe_name "http://pypi/setuptools-1.0.tar.gz") = true ∧
    safe_name "http://pypi/setuptools-1.0.tar.gz" ∉ ([] : List String) ∧
    ((feed (fun _ => none) {}
        { requirement := "http://pypi/setuptools-1.0.tar.gz" }).1.requirements
      = [safe_name "http://pypi/setuptools-1.0.tar.gz"] ∧
    ∃ svc job, (feed (fun _ => none) {}
        { requirement := "http://pypi/setuptools-1.0.tar.gz" }).2
      = some (svc, job)) :=
  ⟨by decide, by decide,
    feed_url_bypasses_blacklist (fun _ => none) {}
      { requirement := "http://pypi/setuptools-1.0.tar.gz" }
      (by decide) (by decide)⟩

/-- C4: feeding a requirement already in the global set leaves the whole
state unchanged and queues nothing; therefore `feed` is idempotent —
running `feed` again on the state produced by a first `feed` of the same
data is a no-op. -/
theorem feed_idempotent (index : String → Option String) (s : EnvState)
    (data : Job) :
    (safe_name data.requirement ∈ s.requirements →
      feed index s data = (s, none)) ∧
    feed index (feed index s data).1 data = ((feed index s data).1, none) := by
  refine ⟨feed_mem_drop index s data, ?_⟩
  by_cases hP : (is_url (safe_name data.requirement) = false ∧
      requirement_name (safe_name data.requirement) ∈ PACKAGE_BLACKLIST)
  · have h1 : feed index s data = (s, none) := by simp [feed, hP]
    rw [h1]
    simp [feed, hP]
  · by_cases hQ : safe_name data.requirement ∈ s.requirements
    · have h1 : feed index s data = (s, none) := feed_mem_drop index s data hQ
      rw [h1]
      exact feed_mem_drop index s data hQ
    · apply feed_mem_drop
      rw [feed_admit_requirements index s data hP hQ]
      exact List.mem_cons_self _ _

/-- Witness for C4: feeding `curdling` into a state already holding it is the
identity. -/
theorem feed_idempotent_witness :
    safe_name "curdling" ∈ ["curdling"] ∧
    feed (fun _ => none) { requirements := ["curdling"] }
        { requirement := "curdling" }
      = ({ requirements := ["curdling"] }, none) :=
  ⟨by decide,
    (feed_idempotent (fun _ => none) { requirements := ["curdling"] }
      { requirement := "curdling" }).1 (by decide)⟩

/-- A concrete reconciliation map used by the witnesses: `forbiddenfruit`
fails with a version conflict, every other package name resolves to itself at
version 0.1.2 with a wheel on file. -/
def mSample : MappingOps :=
  { best_version := fun pn =>
      if pn = "forbiddenfruit" then Except.error (Exc.versionConflict "conflict")
      else Except.ok ("0.1.2", pn)
    get_requirements_by_package_name := fun pn => [pn]
    get_data_exception := fun _ => none
    get_data_wheel := fun pn => some (pn ++ ".whl")
    dependency_of := fun _ => some "curdling" }

/-- C5: when `best_version` fails for a package name, every requirement filed
under that name contributes an entry to the error report under that name,
carrying its own stored exception if one is on file and otherwise the
reconciliation failure, together with its recorded `dependency_of`. -/
theorem load_installer_errors_complete (m : MappingOps) (pns : List String)
    (pn : String) (exc : Exc) (req : String)
    (hmem : pn ∈ pns) (hfail : m.best_version pn = Except.error exc)
    (hreq : req ∈ m.get_requirements_by_package_name pn) :
    (pn, { exception := (m.get_data_exception req).getD exc,
           requirement := req,
           dependency_of := m.dependency_of req : ErrorEntry }) ∈
      (load_installer_loop m pns).2 := by
  induction pns with
  | nil => cases hmem
  | cons q rest ih =>
    rcases List.mem_cons.mp hmem with h | h
    · subst h
      simp only [load_installer_loop, hfail, List.mem_append]
      exact Or.inl (List.mem_map_of_mem _ hreq)
    · cases hbv : m.best_version q with
      | error e =>
        simp only [load_installer_loop, hbv, List.mem_append]
        exact Or.inr (ih h)
      | ok vr =>
        simp only [load_installer_loop, hbv]
        exact ih h

/-- Witness for C5: the conflicting package contributes its requirement to
the error report. -/
theorem load_installer_errors_complete_witness :
    "forbiddenfruit" ∈ ["curdling", "forbiddenfruit"] ∧
    mSample.best_version "forbiddenfruit"
      = Except.error (Exc.versionConflict "conflict") ∧
    "forbiddenfruit" ∈ mSample.get_requirements_by_package_name "forbiddenfruit" ∧
    ("forbiddenfruit",
      { exception := (mSample.get_data_exception "forbiddenfruit").getD
          (Exc.versionConflict "conflict"),
        requirement := "forbiddenfruit",
        dependency_of := mSample.dependency_of "forbiddenfruit" : ErrorEntry }) ∈
      (load_installer_loop mSample ["curdling", "forbiddenfruit"]).2 :=
  ⟨by decide, rfl, by decide,
    load_installer_errors_complete mSample ["curdling", "forbiddenfruit"]
      "forbiddenfruit" (Exc.versionConflict "conflict") "forbiddenfruit"
      (by decide) rfl (by decide)⟩

/-- C6: a non-empty reconciliation error report at the end of
retrieve-and-build makes `run` skip the install phase and deliver the
aggregated errors through the `finished` signal. -/
theorem run_suppresses_install_on_errors (m : MappingOps)
    (pns : List String) (herr : (load_installer_loop m pns).2 ≠ []) :
    run m pns = (false, some (load_installer_loop m pns).2) := by
  have hie : (load_installer_loop m pns).2.isEmpty = false := by
    cases hl : (load_installer_loop m pns).2 with
    | nil => exact absurd hl herr
    | cons a l => simp [List.isEmpty]
  simp [run, retrieve_and_build_tail, hie]

/-- Witness for C6 at a concrete conflicting package set. -/
theorem run_suppresses_install_on_errors_witness :
    (load_installer_loop mSample ["forbiddenfruit"]).2 ≠ [] ∧
    run mSample ["forbiddenfruit"]
      = (false, some (load_installer_loop mSample ["forbiddenfruit"]).2) :=
  ⟨by decide,
    run_suppresses_install_on_errors mSample ["forbiddenfruit"] (by decide)⟩

/-- C8: during the upload phase a `VersionConflict` from the best-version
lookup makes the loop skip that package and continue with the remaining
ones. -/
theorem load_uploader_skips_conflict (m : MappingOps) (server pn : String)
    (rest : List String) (msg : String)
    (hvc : m.best_version pn = Except.error (Exc.versionConflict msg)) :
    load_uploader_pkgs m server (pn :: rest)
      = load_uploader_pkgs m server rest := by
  simp [load_uploader_pkgs, hvc, isVersionConflict]

/-- Witness for C8: the conflicting package is skipped while the following
package is still processed. -/
theorem load_uploader_skips_conflict_witness :
    mSample.best_version "forbiddenfruit"
      = Except.error (Exc.versionConflict "conflict") ∧
    load_uploader_pkgs mSample "http://curd" ["forbiddenfruit", "sure"]
      = load_uploader_pkgs mSample "http://curd" ["sure"] :=
  ⟨rfl,
    load_uploader_skips_conflict mSample "http://curd" "forbiddenfruit"
      ["sure"] "conflict" rfl⟩

/-- C10: every package name whose `best_version` succeeds has its chosen
requirement and wheel queued to the Installer by `load_installer`, and this
holds even when the error report turns out non-empty and `run` therefore does
not start the install phase — the suppression is not atomic with respect to
the Installer queue. -/
theorem load_installer_queues_despite_errors (m : MappingOps)
    (pns : List String) (pn v chosen : String)
    (hmem : pn ∈ pns) (hok : m.best_version pn = Except.ok (v, chosen)) :
    ({ requirement := chosen, wheel := m.get_data_wheel chosen : InstallerJob }
        ∈ (load_installer_loop m pns).1) ∧
    ((load_installer_loop m pns).2 ≠ [] → (run m pns).1 = false) := by
  constructor
  · induction pns with
    | nil => cases hmem
    | cons q rest ih =>
      rcases List.mem_cons.mp hmem with h | h
      · subst h
        simp [load_installer_loop, hok]
      · cases hbv : m.best_version q with
        | error e =>
          simp only [load_installer_loop, hbv]
          exact ih h
        | ok vr =>
          simp only [load_installer_loop, hbv, List.mem_cons]
          exact Or.inr (ih h)
  · intro herr
    have hie : (load_installer_loop m pns).2.isEmpty = false := by
      cases hl : (load_installer_loop m pns).2 with
      | nil => exact absurd hl herr
      | cons a l => simp [List.isEmpty]
    simp [run, retrieve_and_build_tail, hie]

/-- Witness for C10: `sure` is queued to the Installer although the conflict
on `forbiddenfruit` suppresses the install phase. -/
theorem load_installer_queues_despite_errors_witness :
    "sure" ∈ ["forbiddenfruit", "sure"] ∧
    mSample.best_version "sure" = Except.ok ("0.1.2", "sure") ∧
    (({ requirement := "sure",
        wheel := mSample.get_data_wheel "sure" : InstallerJob }
        ∈ (load_installer_loop mSample ["forbiddenfruit", "sure"]).1) ∧
      ((load_installer_loop mSample ["forbiddenfruit", "sure"]).2 ≠ [] →
        (run mSample ["forbiddenfruit", "sure"]).1 = false)) :=
  ⟨by decide, rfl,
    load_installer_queues_despite_errors mSample ["forbiddenfruit", "sure"]
      "sure" "0.1.2" "sure" (by decide) rfl⟩

/-- C1: over any trace of observed states, the retrieve-and-build wait loop
exits exactly when some observed state satisfies
`|requirements| = (count dependencer + repeated) + |errors|`, and the tuples
it emits are exactly the progress tuples
`(total, retrieved, built, failed)` of every tick it processes, the exiting
tick included. -/
theorem rb_loop_exit_iff_emits (trace : List EnvState) :
    ((rbLoop trace).2 = true ↔
      ∃ s ∈ trace, s.requirements.length
        = (count s "dependencer" + s.repeated) + s.errors.length) ∧
    (rbLoop trace).1 = (rbTicks trace).map progress := by
  induction trace with
  | nil => simp [rbLoop, rbTicks]
  | cons s rest ih =>
    by_cases h : rbExit s
    · have he : s.requirements.length
          = (count s "dependencer" + s.repeated) + s.errors.length := by
        simpa [rbExit] using h
      refine ⟨?_, ?_⟩
      · simp only [rbLoop, if_pos h]
        exact ⟨fun _ => ⟨s, List.mem_cons_self s rest, he⟩, fun _ => trivial⟩
      · simp [rbLoop, rbTicks, if_pos h]
    · have he : ¬ s.requirements.length
          = (count s "dependencer" + s.repeated) + s.errors.length := by
        simpa [rbExit] using h
      refine ⟨?_, ?_⟩
      · simp only [rbLoop, if_neg h]
        constructor
        · intro hb
          obtain ⟨x, hx, hpx⟩ := ih.1.mp hb
          exact ⟨x, List.mem_cons_of_mem s hx, hpx⟩
        · rintro ⟨x, hx, hpx⟩
          rcases List.mem_cons.mp hx with h2 | h2
          · exact absurd (h2 ▸ hpx) he
          · exact ih.1.mpr ⟨x, h2, hpx⟩
      · simp only [rbLoop, rbTicks, if_neg h, List.map_cons]
        exact congrArg (progress s :: ·) ih.2

/-- C3: an admitted requirement is routed to exactly one service following
the precedence wheel-hit → Dependencer, source-hit → Curdler, URL →
Downloader, otherwise Finder; in particular a cache-hit wheel keeps the
requirement away from both the Finder and the Downloader. -/
theorem feed_routing_precedence (index : String → Option String)
    (s : EnvState) (data : Job) (svc : Service) (job : Job)
    (hq : (feed index s data).2 = some (svc, job)) :
    ((index (data.requirement ++ ";whl")).isSome → svc = Service.dependencer) ∧
    (index (data.requirement ++ ";whl") = none →
      (index (data.requirement ++ ";~whl")).isSome → svc = Service.curdler) ∧
    (index (data.requirement ++ ";whl") = none →
      index (data.requirement ++ ";~whl") = none →
      is_url data.requirement = true → svc = Service.downloader) ∧
    (index (data.requirement ++ ";whl") = none →
      index (data.requirement ++ ";~whl") = none →
      is_url data.requirement = false → svc = Service.finder) ∧
    ((index (data.requirement ++ ";whl")).isSome →
      svc ≠ Service.finder ∧ svc ≠ Service.downloader) := by
  by_cases hP : (is_url (safe_name data.requirement) = false ∧
      requirement_name (safe_name data.requirement) ∈ PACKAGE_BLACKLIST)
  · simp [feed, hP] at hq
  · by_cases hQ : safe_name data.requirement ∈ s.requirements
    · simp [feed, hP, hQ] at hq
    · cases hw : index (data.requirement ++ ";whl") with
      | some w =>
        have hsvc : svc = Service.dependencer := by
          simp [feed, hP, hQ, set_wheel, hw] at hq
          exact hq.1.symm
        simp [hsvc, hw]
      | none =>
        cases ht : index (data.requirement ++ ";~whl") with
        | some t =>
          have hsvc : svc = Service.curdler := by
            simp [feed, hP, hQ, set_wheel, set_tarball, hw, ht] at hq
            exact hq.1.symm
          simp [hsvc, hw, ht]
        | none =>
          cases hu : is_url data.requirement with
          | true =>
            have hsvc : svc = Service.downloader := by
              simp [feed, hP, hQ, set_wheel, set_tarball, set_url,
                hw, ht, hu] at hq
              exact hq.1.symm
            simp [hsvc, hw, ht, hu]
          | false =>
            have hsvc : svc = Service.finder := by
              simp [feed, hP, hQ, set_wheel, set_tarball, set_url,
                hw, ht, hu] at hq
              exact hq.1.symm
            simp [hsvc, hw, ht, hu]

/-- The concrete artifact index used by the C3 witness: a built wheel is on
file for `curdling`. -/
def wheelIndex : String → Option String :=
  fun k => if k = "curdling;whl" then some "curdling.whl" else none

/-- Witness for C3: with a wheel cache hit, `feed` routes `curdling` to the
Dependencer, skipping Finder and Downloader. -/
theorem feed_routing_precedence_witness :
    (feed wheelIndex {} { requirement := "curdling" }).2
      = some (Service.dependencer,
          { requirement := "curdling", wheel := some "curdling.whl" }) ∧
    (wheelIndex ("curdling" ++ ";whl")).isSome = true ∧
    (Service.dependencer = Service.dependencer ∧
      Service.dependencer ≠ Service.finder ∧
      Service.dependencer ≠ Service.downloader) := by
  have hq : (feed wheelIndex {} { requirement := "curdling" : Job }).2
      = some (Service.dependencer,
          { requirement := "curdling", wheel := some "curdling.whl" }) := by
    decide
  have h := feed_routing_precedence wheelIndex {} { requirement := "curdling" }
    Service.dependencer { requirement := "curdling", wheel := some "curdling.whl" } hq
  exact ⟨hq, by decide, h.1 (by decide), h.2.2.2.2 (by decide)⟩

end Curdling
